import Mathlib

/-!
Verification of the libcanard DSDL compiler core
(`dsdl_compiler/libcanard_dsdl_compiler/__init__.py`).

The Python source is shallowly embedded below: pure helper functions become
Lean functions, fallible code returns `Except String`, and the filesystem
effects of the emission manager are made explicit as an operation log.
Machine integers in the source are arbitrary-precision Python ints, so they
are modelled directly as `Nat`.
-/

namespace LibcanardDsdl

/-- Python `str.replace` (non-overlapping, left-to-right scan), modelled on
character lists with a fuel argument equal to the input length.  All call
sites in the source use a non-empty pattern. -/
def replaceFuel (pat rep : List Char) : Nat → List Char → List Char
  | _, [] => []
  | 0, l => l
  | fuel + 1, c :: cs =>
    if pat.isPrefixOf (c :: cs) then
      rep ++ replaceFuel pat rep fuel (List.drop pat.length (c :: cs))
    else
      c :: replaceFuel pat rep fuel cs

/-- Python `s.replace(pat, rep)` for a non-empty `pat`. -/
def pyReplace (s pat rep : String) : String :=
  ⟨replaceFuel pat.data rep.data s.data.length s.data⟩

/-- Python `int.bit_length()` on non-negative integers: number of binary
digits, with `bit_length 0 = 0`.  Fuel-based so that the kernel can
evaluate it. -/
def bitLengthFuel : Nat → Nat → Nat
  | 0, _ => 0
  | fuel + 1, n => if n = 0 then 0 else bitLengthFuel fuel (n / 2) + 1

/-- Python `n.bit_length()` for a natural number `n`. -/
def bit_length (n : Nat) : Nat := bitLengthFuel n n

/-- The `pydsdl` cast modes of a primitive type (`CastMode.SATURATED` /
`CastMode.TRUNCATED`). -/
inductive CastMode
  | SATURATED
  | TRUNCATED
deriving DecidableEq

/-- The `pydsdl` type nodes consumed by the compiler, as imported at the top
of the source file: Boolean / UnsignedInteger / SignedInteger / Float
primitives (carrying bit length and cast mode; a Boolean's bit length is
fixed at 1 by the parser), static and dynamic arrays, compound types
(carrying the fully qualified dotted name, the version pair and the upper
bound of the bit length range, which are the only parts of a compound the
resolver reads), and void padding. -/
inductive DataType
  | bool (cast_mode : CastMode)
  | uint (bit_length : Nat) (cast_mode : CastMode)
  | int (bit_length : Nat) (cast_mode : CastMode)
  | float (bit_length : Nat) (cast_mode : CastMode)
  | staticArray (element_type : DataType) (size : Nat)
  | dynamicArray (element_type : DataType) (max_size : Nat)
  | compound (full_name : String) (major minor : Nat) (bit_length_max : Nat)
  | void (bit_length : Nat)
deriving DecidableEq

/-- The dictionary returned by `type_to_c_type`.  The array-specific keys
(`array_max_size_bit_len`, `dynamic_array`, `max_array_elements`) are absent
from the non-array dictionaries in the source; here they default to
`0` / `false`.  The `c_type_category` key (a Python class object, present
only for arrays) carries no data beyond `dynamic_array` and is not
modelled. -/
structure CType where
  c_type : String
  post_c_type : String
  c_type_comment : String
  bitlen : Nat
  max_size : Nat
  signedness : String
  saturate : Bool
  array_max_size_bit_len : Nat := 0
  dynamic_array : Bool := false
  max_array_elements : Nat := 0
deriving DecidableEq

/-- Source `expand_to_next_full` (lines 171-179): round a bit size up to the
next of 8/16/32/64.  The Python function has no `else` branch, so for
`size > 64` it falls off the end and returns `None`. -/
def expand_to_next_full (size : Nat) : Option Nat :=
  if size ≤ 8 then some 8
  else if size ≤ 16 then some 16
  else if size ≤ 32 then some 32
  else if size ≤ 64 then some 64
  else none

/-- Source `get_max_size` (lines 181-185): `2^bits - 1` for unsigned,
`2^(bits-1) - 1` for signed. -/
def get_max_size (bits : Nat) (unsigned : Bool) : Nat :=
  if unsigned then 2 ^ bits - 1 else 2 ^ (bits - 1) - 1

/-- The `saturate` lookup at source lines 189-192: `SATURATED ↦ True`,
`TRUNCATED ↦ False`. -/
def saturateOf : CastMode → Bool
  | .SATURATED => true
  | .TRUNCATED => false

/-- The `cast_mode` name lookup at source lines 193-196. -/
def cast_mode_name : CastMode → String
  | .SATURATED => "Saturate"
  | .TRUNCATED => "Truncate"

/-- The `float_type` dictionary lookup at source lines 198-202; any bit
length other than 16/32/64 raises a `KeyError`. -/
def float_type_of (bl : Nat) : Option String :=
  if bl = 16 then some "float"
  else if bl = 32 then some "float"
  else if bl = 64 then some "double"
  else none

/-- Source `get_version_string` (lines 109-110). -/
def get_version_string (major minor : Nat) : String :=
  toString major ++ "." ++ toString minor

/-- Source `type_to_c_type` (lines 187-287).  Failures of the Python code
(the `KeyError` on an unsupported float width, the `TypeError` raised by
formatting `expand_to_next_full`'s `None` with `%d` for integer widths
above 64, and the final `DsdlCompilerException` for unknown categories)
are returned as `Except.error`. -/
def type_to_c_type : DataType → Except String CType
  | .float bl cm =>
    match float_type_of bl with
    | none => Except.error "KeyError: unsupported float bit length"
    | some ft =>
      Except.ok { c_type := ft, post_c_type := "",
                  c_type_comment := "float" ++ toString bl ++ " " ++ cast_mode_name cm,
                  bitlen := bl,
                  max_size := get_max_size bl false,
                  signedness := "false",
                  saturate := false }
  | .bool cm =>
      Except.ok { c_type := "bool", post_c_type := "",
                  c_type_comment := "bit len " ++ toString 1,
                  bitlen := 1,
                  max_size := get_max_size 1 true,
                  signedness := "false",
                  saturate := saturateOf cm }
  | .uint bl cm =>
    match expand_to_next_full bl with
    | none => Except.error "TypeError: %d format expects a number, got None"
    | some w =>
      Except.ok { c_type := "uint" ++ toString w ++ "_t", post_c_type := "",
                  c_type_comment := "bit len " ++ toString bl,
                  bitlen := bl,
                  max_size := get_max_size bl true,
                  signedness := "false",
                  saturate := if saturateOf cm && decide (w = bl) then false
                              else saturateOf cm }
  | .int bl cm =>
    match expand_to_next_full bl with
    | none => Except.error "TypeError: %d format expects a number, got None"
    | some w =>
      Except.ok { c_type := "int" ++ toString w ++ "_t", post_c_type := "",
                  c_type_comment := "bit len " ++ toString bl,
                  bitlen := bl,
                  max_size := get_max_size bl false,
                  signedness := "true",
                  saturate := if saturateOf cm && decide (w = bl) then false
                              else saturateOf cm }
  | .staticArray el n =>
    match type_to_c_type el with
    | Except.error e => Except.error e
    | Except.ok values =>
      Except.ok { c_type := values.c_type,
                  post_c_type := "[" ++ toString n ++ "]",
                  c_type_comment := "Static Array " ++ toString values.bitlen
                    ++ "bit[" ++ toString n ++ "] max items",
                  bitlen := values.bitlen,
                  array_max_size_bit_len := bit_length n,
                  max_size := values.max_size,
                  signedness := values.signedness,
                  saturate := values.saturate,
                  dynamic_array := false,
                  max_array_elements := n }
  | .dynamicArray el n =>
    match type_to_c_type el with
    | Except.error e => Except.error e
    | Except.ok values =>
      Except.ok { c_type := values.c_type,
                  post_c_type := "[" ++ toString n ++ "]",
                  c_type_comment := "Dynamic Array " ++ toString values.bitlen
                    ++ "bit[" ++ toString n ++ "] max items",
                  bitlen := values.bitlen,
                  array_max_size_bit_len := bit_length n,
                  max_size := values.max_size,
                  signedness := values.signedness,
                  saturate := values.saturate,
                  dynamic_array := true,
                  max_array_elements := n }
  | .compound full_name major minor bit_length_max =>
      Except.ok { c_type := pyReplace (full_name ++ "_" ++ get_version_string major minor) "." "_",
                  post_c_type := "",
                  c_type_comment := "",
                  bitlen := bit_length_max,
                  max_size := 0,
                  signedness := "false",
                  saturate := false }
  | .void bl =>
      Except.ok { c_type := "", post_c_type := "",
                  c_type_comment := "void" ++ toString bl,
                  bitlen := bl,
                  max_size := 0,
                  signedness := "false",
                  saturate := false }

/-- Extract the successful result of an `Except` computation, `none` when it
raised. -/
def exOk : Except ε α → Option α
  | Except.ok a => some a
  | Except.error _ => none

/-- Returns `true` exactly when the computation raised. -/
def except_is_error : Except ε α → Bool
  | Except.ok _ => false
  | Except.error _ => true

/-- The property of claim C1 at a fixed declared bit length and cast mode:
the resolved storage type is `uint<W>_t` where `W` is the least member of
`{8,16,32,64}` that is at least `b`, the unsigned numeric max is
`2 ^ b - 1` (computed from the declared bit length), and for signed
integers of the same declared length (whenever it is a legal signed
length, `2 ≤ b`) the numeric max is `2 ^ (b - 1) - 1`. -/
abbrev C1Prop (b : Nat) (cm : CastMode) : Prop :=
  expand_to_next_full b = some ((expand_to_next_full b).getD 0)
  ∧ (expand_to_next_full b).getD 0 ∈ [8, 16, 32, 64]
  ∧ b ≤ (expand_to_next_full b).getD 0
  ∧ (∀ w ∈ [8, 16, 32, 64], b ≤ w → (expand_to_next_full b).getD 0 ≤ w)
  ∧ (exOk (type_to_c_type (.uint b cm))).map (fun d => (d.c_type, d.max_size))
      = some ("uint" ++ toString ((expand_to_next_full b).getD 0) ++ "_t", 2 ^ b - 1)
  ∧ (2 ≤ b →
      (exOk (type_to_c_type (.int b cm))).map CType.max_size = some (2 ^ (b - 1) - 1))

set_option maxHeartbeats 2000000 in
/-- C1: for every unsigned integer type node with declared bit length
`1 ≤ b ≤ 64` and any cast mode, `type_to_c_type` produces a storage type
`uint<W>_t` whose width `W` is the smallest value in `{8,16,32,64}` that is
`≥ b`, with numeric max `2 ^ b - 1` computed from the declared bit length
(not from the rounded storage width); and for every signed integer type
node with `2 ≤ b ≤ 64` the numeric max is `2 ^ (b - 1) - 1`. -/
theorem uint_storage_and_max_resolved (b : Nat) (h1 : 1 ≤ b) (h2 : b ≤ 64)
    (cm : CastMode) : C1Prop b cm := by
  interval_cases b <;> cases cm <;> decide

/-- Witness for C1 at the concrete declared bit length 12, saturated. -/
theorem uint_storage_and_max_resolved_witness :
    (1 ≤ 12 ∧ 12 ≤ 64) ∧ C1Prop 12 CastMode.SATURATED :=
  ⟨by decide, uint_storage_and_max_resolved 12 (by decide) (by decide) CastMode.SATURATED⟩

/-- The property of claim C2 at a fixed declared bit length and cast mode:
the resolved descriptor of an unsigned or signed integer node is marked
saturating exactly when the cast mode is `SATURATED` and the rounded
storage width differs from the declared bit length. -/
abbrev C2Prop (b : Nat) (cm : CastMode) : Prop :=
  ((exOk (type_to_c_type (.uint b cm))).map CType.saturate = some true
      ↔ (cm = CastMode.SATURATED ∧ (expand_to_next_full b).getD 0 ≠ b))
  ∧ ((exOk (type_to_c_type (.int b cm))).map CType.saturate = some true
      ↔ (cm = CastMode.SATURATED ∧ (expand_to_next_full b).getD 0 ≠ b))

set_option maxHeartbeats 2000000 in
/-- C2: for every unsigned or signed integer type node with declared bit
length `1 ≤ b ≤ 64`, `type_to_c_type` marks the field saturating iff the
cast mode is Saturated and the rounded storage width differs from the
declared bit length. -/
theorem integer_saturation_marking (b : Nat) (h1 : 1 ≤ b) (h2 : b ≤ 64)
    (cm : CastMode) : C2Prop b cm := by
  interval_cases b <;> cases cm <;> decide

/-- Witness for C2 at the claim's own examples: an 8-bit unsigned saturated
field gets saturation skipped and a 12-bit one (storage width 16) gets it
applied. -/
theorem integer_saturation_marking_witness :
    ((1 ≤ 8 ∧ 8 ≤ 64) ∧ C2Prop 8 CastMode.SATURATED)
    ∧ ((1 ≤ 12 ∧ 12 ≤ 64) ∧ C2Prop 12 CastMode.SATURATED) :=
  ⟨⟨by decide, integer_saturation_marking 8 (by decide) (by decide) CastMode.SATURATED⟩,
   ⟨by decide, integer_saturation_marking 12 (by decide) (by decide) CastMode.SATURATED⟩⟩

/-- C5 counterexample: the claim says a Boolean type node never carries
saturation regardless of cast mode, but `type_to_c_type` passes the cast
mode straight through for Booleans (source line 230), so a saturated
Boolean is marked saturating. -/
theorem bool_saturated_keeps_saturation :
    (exOk (type_to_c_type (.bool CastMode.SATURATED))).map CType.saturate = some true
    ∧ (some true : Option Bool) ≠ some false := by decide

/-- C5 (amended): for every Boolean type node the descriptor has numeric
max 1 and is marked saturating exactly when the declared cast mode is
Saturated (the cast mode is passed through, not forced off); for every
Float type node (bit lengths 16, 32, 64) saturation is disabled regardless
of cast mode. -/
theorem bool_max_and_float_never_saturates (cm : CastMode) :
    ((exOk (type_to_c_type (.bool cm))).map (fun d => (d.max_size, d.saturate))
        = some (1, decide (cm = CastMode.SATURATED)))
    ∧ (exOk (type_to_c_type (.float 16 cm))).map CType.saturate = some false
    ∧ (exOk (type_to_c_type (.float 32 cm))).map CType.saturate = some false
    ∧ (exOk (type_to_c_type (.float 64 cm))).map CType.saturate = some false := by
  cases cm <;> decide

/-- The property of claim C6 at a fixed declared bit length and cast mode:
resolving an unsigned or signed integer type node fails with an error
rather than returning a descriptor. -/
abbrev C6Prop (b : Nat) (cm : CastMode) : Prop :=
  except_is_error (type_to_c_type (.uint b cm)) = true
  ∧ except_is_error (type_to_c_type (.int b cm)) = true

/-- C6: for every unsigned or signed integer type node with declared bit
length greater than 64, `type_to_c_type` signals an error (in the source,
`expand_to_next_full` returns `None` and the `'%s%d_t' % ...` formatting
of the storage type raises) rather than silently producing a descriptor
with a defaulted storage type. -/
theorem oversized_integer_resolution_fails (b : Nat) (h : 64 < b)
    (cm : CastMode) : C6Prop b cm := by
  have hexp : expand_to_next_full b = none := by
    unfold expand_to_next_full
    rw [if_neg (by omega), if_neg (by omega), if_neg (by omega), if_neg (by omega)]
  constructor <;> simp [type_to_c_type, hexp, except_is_error]

/-- Witness for C6 at the concrete declared bit length 65. -/
theorem oversized_integer_resolution_fails_witness :
    64 < 65 ∧ C6Prop 65 CastMode.SATURATED :=
  ⟨by decide, oversized_integer_resolution_fails 65 (by decide) CastMode.SATURATED⟩

/-- A field (or constant) attribute of a compound type: a name and its
resolved data type. -/
structure Field where
  name : String
  data_type : DataType
deriving DecidableEq

/-- A non-service compound definition body, as the annotator sees it: a
`pydsdl` `StructureType` (`isUnion = false`) or `UnionType`
(`isUnion = true`) with its own field and constant lists. -/
structure MessageModel where
  fields : List Field
  constants : List Field
  isUnion : Bool
deriving DecidableEq

/-- A `pydsdl` `ServiceType`: per the external parser contract (spec §3,
§6) a service node carries exactly a paired request sub-type and response
sub-type; the fields of each live on the sub-type itself. -/
structure ServiceModel where
  request_type : MessageModel
  response_type : MessageModel
deriving DecidableEq

/-- The union-discriminant computation of `generate_one_type` for a
non-service compound (source lines 346-348): `t.union` is `False` for a
structure (modelled `none`), and for a union it is replaced by
`(len(t.fields) - 1).bit_length()`. -/
def generate_message_union (t : MessageModel) : Option Nat :=
  if t.isUnion then some (bit_length (t.fields.length - 1)) else none

/-- The union-discriminant computation of `generate_one_type` for a service
(source lines 357-362).  Line 357 reads the correct
`t.request_type.fields`, but lines 358, 360 and 362 read `t.response_fields`
and `t.request_fields` — attributes that do not exist on a service node
(modelled from the spec: §3 and §6 define the external parser contract,
under which a service carries only its request/response sub-types, so the
accesses raise `AttributeError`).  Execution order is modelled exactly:
line 358 evaluates `len(t.response_fields)` whenever the response sub-type
is a union (short-circuit `and`), before the `if t.request_union:` branch
at line 359-360 can evaluate `len(t.request_fields)`. -/
def generate_service_unions (t : ServiceModel) : Except String (Nat × Nat) :=
  let request_union : Nat :=
    if t.request_type.isUnion then t.request_type.fields.length else 0
  if t.response_type.isUnion then
    Except.error "AttributeError: ServiceType object has no attribute response_fields"
  else
    if request_union ≠ 0 then
      Except.error "AttributeError: ServiceType object has no attribute request_fields"
    else
      Except.ok (request_union, 0)

/-- A field of unsigned 8-bit type, used as a concrete building block. -/
def sampleField (nm : String) : Field :=
  { name := nm, data_type := .uint 8 CastMode.SATURATED }

/-- C3, evaluated at the failing input: the non-service part of the claim
holds (a union of one field gets discriminant width 0 without an error, a
union of five fields gets width 3), but for a service whose response
sub-type is a union the annotator does not compute the discriminant from
that sub-type's own field list — it reads the nonexistent service
attribute `response_fields` and fails, where the claim requires width
`bit_length (2 - 1) = 1`. -/
theorem service_union_discriminant_crashes :
    generate_message_union { fields := [sampleField "a"], constants := [], isUnion := true }
      = some 0
    ∧ generate_message_union
        { fields := [sampleField "a", sampleField "b", sampleField "c",
                     sampleField "d", sampleField "e"],
          constants := [], isUnion := true } = some 3
    ∧ generate_service_unions
        { request_type := { fields := [sampleField "q"], constants := [], isUnion := false },
          response_type := { fields := [sampleField "a", sampleField "b"], constants := [],
                             isUnion := true } }
      = Except.error "AttributeError: ServiceType object has no attribute response_fields"
    ∧ generate_message_union
        { fields := [sampleField "a", sampleField "b"], constants := [], isUnion := true }
      = some 1 :=
  ⟨by decide, by decide, rfl, by decide⟩

/-- One filesystem operation performed by `write_generated_data`.
`makedirs` only affects directories and is not part of the file-operation
log. -/
inductive FsOp
  | remove (path : String)
  | write (path : String) (data : String)
  | append (path : String) (data : String)
  | chmod (path : String) (mode : Nat)
deriving DecidableEq

/-- Source `write_generated_data` (lines 152-169) over an explicit
filesystem (a map from path to file content).  Returns the updated
filesystem together with the log of file operations performed, in order:
in append mode the data is appended (creating the file if absent); in the
default mode an existing target is removed and the file is rewritten; the
file is then permission-locked to `0o444` when
`not header_only or (header_only and append_file)`.  There is no content
comparison anywhere in the source: the write path does not depend on the
existing content. -/
def write_generated_data (fs : String → Option String) (filename data : String)
    (header_only append_file : Bool) : (String → Option String) × List FsOp :=
  if append_file then
    let fs1 := fun p => if p = filename then some ((fs filename).getD "" ++ data) else fs p
    let ops1 := [FsOp.append filename data]
    (fs1, ops1 ++ if !header_only || (header_only && append_file)
                  then [FsOp.chmod filename 292] else [])
  else
    let fs1 := fun p => if p = filename then some data else fs p
    let ops1 := match fs filename with
      | some _ => [FsOp.remove filename, FsOp.write filename data]
      | none => [FsOp.write filename data]
    (fs1, ops1 ++ if !header_only || (header_only && append_file)
                  then [FsOp.chmod filename 292] else [])

/-- A filesystem that already holds the exact content about to be emitted. -/
def fsWithIdenticalContent : String → Option String :=
  fun p => if p = "pkg/Type.1.0.h" then some "content" else none

/-- C4, evaluated at the failing input: emitting content byte-identical to
the target file's existing content still removes the file, rewrites it and
re-locks its permissions — `write_generated_data` performs no content
comparison, contradicting the module docstring's lazy-write promise
(source lines 48-50). -/
theorem identical_content_still_rewritten :
    (write_generated_data fsWithIdenticalContent "pkg/Type.1.0.h" "content" false false).2
      = [FsOp.remove "pkg/Type.1.0.h", FsOp.write "pkg/Type.1.0.h" "content",
         FsOp.chmod "pkg/Type.1.0.h" 292]
    ∧ (write_generated_data fsWithIdenticalContent "pkg/Type.1.0.h" "content" false false).2
      ≠ ([] : List FsOp) := by
  constructor
  · rfl
  · decide

/-- Source `type_output_filename` (lines 90-97) for the default header
extension: dotted namespace segments become path segments, followed by
`'.'.join(['', version, 'h'])`.  (The code-extension branch that rewrites
the final segment is not taken for the header extension used by the
dependency collector.) -/
def type_output_filename_h (full_name : String) (major minor : Nat) : String :=
  String.intercalate "/" (full_name.splitOn ".")
    ++ "." ++ get_version_string major minor ++ ".h"

/-- Source `detect_include` (lines 300-304): a compound type yields its
output filename, an array recurses into its element type, anything else
returns `None`. -/
def detect_include : DataType → Option String
  | .compound full_name major minor _ => some (type_output_filename_h full_name major minor)
  | .staticArray el _ => detect_include el
  | .dynamicArray el _ => detect_include el
  | _ => none

/-- Source `fields_includes` (lines 299-305):
`list(sorted(set(filter(None, [detect_include(x.data_type) for x in fields]))))`.
`set` followed by `sorted` produces the lexicographically sorted,
duplicate-free enumeration of the detected includes; it is modelled as
deduplication followed by insertion sort, which produces that same list. -/
def fields_includes (fields : List Field) : List String :=
  List.insertionSort (· ≤ ·)
    ((fields.filterMap (fun x => detect_include x.data_type)).dedup)

/-- A compound type as `generate_one_type` dispatches on it: a
structure/union (`StructureType`/`UnionType`) or a service. -/
inductive CompoundModel
  | message (m : MessageModel)
  | service (s : ServiceModel)
deriving DecidableEq

/-- The field list whose includes a compound contributes: its own fields,
or for a service `t.request_type.fields + t.response_type.fields`
(source lines 307-310). -/
def own_fields : CompoundModel → List Field
  | .message m => m.fields
  | .service s => s.request_type.fields ++ s.response_type.fields

/-- The `t.c_includes` assignment of `generate_one_type`
(source lines 307-310). -/
def c_includes : CompoundModel → List String
  | .message m => fields_includes m.fields
  | .service s => fields_includes (s.request_type.fields ++ s.response_type.fields)

/-- The membership characterization of `fields_includes`: a path appears
iff some field's data type ultimately references a compound with that
output path. -/
theorem mem_fields_includes (fields : List Field) (p : String) :
    p ∈ fields_includes fields ↔ ∃ x ∈ fields, detect_include x.data_type = some p := by
  unfold fields_includes
  rw [(List.perm_insertionSort _ _).mem_iff, List.mem_dedup, List.mem_filterMap]

/-- C7: for every compound type the computed include list is sorted
lexicographically, has no duplicates, and contains exactly the output
paths of the compounds ultimately referenced by its own fields (through
arrays, ignoring primitives and voids) — for a service, by the union of
the request and response field lists; and the service list is exactly the
deduplicated union of the two sub-lists' entries. -/
theorem dependency_list_sorted_unique_complete :
    (∀ t : CompoundModel,
      (c_includes t).Sorted (· ≤ ·)
      ∧ (c_includes t).Nodup
      ∧ (∀ p, p ∈ c_includes t ↔ ∃ x ∈ own_fields t, detect_include x.data_type = some p))
    ∧ (∀ s : ServiceModel, ∀ p,
        p ∈ c_includes (.service s) ↔
          p ∈ c_includes (.message s.request_type)
          ∨ p ∈ c_includes (.message s.response_type)) := by
  have hmain : ∀ t : CompoundModel,
      (c_includes t).Sorted (· ≤ ·)
      ∧ (c_includes t).Nodup
      ∧ (∀ p, p ∈ c_includes t ↔ ∃ x ∈ own_fields t, detect_include x.data_type = some p) := by
    intro t
    have hrepr : c_includes t = fields_includes (own_fields t) := by
      cases t <;> rfl
    refine ⟨?_, ?_, ?_⟩
    · rw [hrepr]
      exact List.sorted_insertionSort _ _
    · rw [hrepr]
      exact ((List.perm_insertionSort _ _).nodup_iff).mpr (List.nodup_dedup _)
    · intro p
      rw [hrepr]
      exact mem_fields_includes _ _
  refine ⟨hmain, ?_⟩
  intro s p
  rw [((hmain (.service s)).2.2 p),
      ((hmain (.message s.request_type)).2.2 p),
      ((hmain (.message s.response_type)).2.2 p)]
  constructor
  · rintro ⟨x, hx, hdet⟩
    rcases List.mem_append.mp hx with h | h
    · exact Or.inl ⟨x, h, hdet⟩
    · exact Or.inr ⟨x, h, hdet⟩
  · rintro (⟨x, hx, hdet⟩ | ⟨x, hx, hdet⟩)
    · exact ⟨x, List.mem_append.mpr (Or.inl hx), hdet⟩
    · exact ⟨x, List.mem_append.mpr (Or.inr hx), hdet⟩

/-- The whitespace characters that Python `str.rstrip()` removes (ASCII
subset; the renderer works on ASCII template text). -/
def is_py_space (c : Char) : Bool :=
  c = ' ' || c = '\t' || c = '\n' || c = '\r' || c = '\x0b' || c = '\x0c'

/-- Python `s.rstrip()`: drop trailing whitespace. -/
def pyRstrip (s : String) : String :=
  ⟨(s.data.reverse.dropWhile is_py_space).reverse⟩

/-- Python `str.splitlines()` on a character list: lines are terminated by
`\n`, `\r\n` or `\r`, and a trailing terminator does not produce a final
empty line.  (The rarer Unicode line breaks do not occur in the rendered
template text.) -/
def splitlinesGo : List Char → List Char → List (List Char)
  | [], acc => [acc.reverse]
  | '\r' :: '\n' :: cs, acc =>
    acc.reverse :: (match cs with | [] => [] | _ :: _ => splitlinesGo cs [])
  | '\n' :: cs, acc =>
    acc.reverse :: (match cs with | [] => [] | _ :: _ => splitlinesGo cs [])
  | '\r' :: cs, acc =>
    acc.reverse :: (match cs with | [] => [] | _ :: _ => splitlinesGo cs [])
  | c :: cs, acc => splitlinesGo cs (c :: acc)

/-- Python `s.splitlines()`; the empty string yields no lines. -/
def pySplitlines (s : String) : List String :=
  match s.data with
  | [] => []
  | l => (splitlinesGo l []).map (fun cs => ⟨cs⟩)

/-- The post-render normalization of `generate_one_type` (source lines
366-368): strip trailing whitespace from every line and re-join with
`\n`, then globally replace five, then four, then three consecutive
newlines with two, then replace a brace-newline-blank-line-space sequence
with brace-newline-space. -/
def normalize_rendered_text (text : String) : String :=
  let t1 := String.intercalate "\n" ((pySplitlines text).map pyRstrip)
  let t2 := pyReplace (pyReplace (pyReplace t1 "\n\n\n\n\n" "\n\n") "\n\n\n\n" "\n\n")
              "\n\n\n" "\n\n"
  pyReplace t2 "\x7b\n\n " "\x7b\n "

example : normalize_rendered_text "a  \nb\t" = "a\nb" := by decide

example : normalize_rendered_text "a\n\n\n\nb" = "a\n\nb" := by decide

/-- C8 counterexample: the claim says every run of three or more
consecutive blank lines collapses to exactly one blank line for all run
lengths, but a run of 8 blank lines (9 consecutive newlines) survives the
chained 5-, 4-, 3-newline replacements as two blank lines: the expected
output under the claim would be `"x\n\ny"`. -/
theorem blank_line_run_of_eight_not_collapsed :
    normalize_rendered_text "x\n\n\n\n\n\n\n\n\ny" = "x\n\n\ny"
    ∧ ("x\n\n\ny" : String) ≠ "x\n\ny" := by decide

/-- C8 (amended): trailing whitespace is stripped from every line, and a
run of 3 to 7 consecutive blank lines is collapsed to exactly one blank
line — except that when the line before the run ends with an opening brace
and the line after it starts with a space, the final brace replacement of
source line 368 also removes that one remaining blank line, leaving no
blank line at all; longer runs are only reduced and may leave two blank
lines (a run of 8 blank lines does).  Both context families are stated for
every run length in range: `k` counts the consecutive newlines, so
`4 ≤ k < 9` is a run of 3 to 7 blank lines. -/
theorem short_blank_line_runs_collapsed (k : Nat) (hk : k < 9) (hk4 : 4 ≤ k) :
    normalize_rendered_text ("x " ++ String.mk (List.replicate k '\n') ++ "y\t")
      = "x\n\ny"
    ∧ normalize_rendered_text ("\x7b" ++ String.mk (List.replicate k '\n') ++ " y")
      = "\x7b\n y" := by
  interval_cases k <;> exact ⟨by decide, by decide⟩

/-- Witness for the amended C8 at a run of 4 blank lines (5 newlines), in
both the plain context and the brace context. -/
theorem short_blank_line_runs_collapsed_witness :
    5 < 9 ∧ 4 ≤ 5
    ∧ (normalize_rendered_text ("x " ++ String.mk (List.replicate 5 '\n') ++ "y\t")
         = "x\n\ny"
       ∧ normalize_rendered_text ("\x7b" ++ String.mk (List.replicate 5 '\n') ++ " y")
         = "\x7b\n y") :=
  ⟨by decide, by decide, short_blank_line_runs_collapsed 5 (by decide) (by decide)⟩

/-- The loop of `enum_last_value` (source lines 444-450) after the initial
`last = next(it)` has consumed the first element: `count` is the running
index, `last` the element read one step ahead of the yields; inside the
loop each yield carries `False`, and the final yield after the loop
carries `True`. -/
def enumGo (count : Nat) (last : α) : List α → List (Nat × Bool × α)
  | [] => [(count, true, last)]
  | val :: rest => (count, false, last) :: enumGo (count + 1) val rest

/-- Source `enum_last_value` (lines 442-450).  On an empty iterable the
initial `last = next(it)` raises `StopIteration` inside the generator
before anything is yielded (under PEP 479 the consumer sees it as a
`RuntimeError`); the generator never produces an empty enumeration, so the
error is modelled as `Except.error`. -/
def enum_last_value (start : Nat) : List α → Except String (List (Nat × Bool × α))
  | [] => Except.error "StopIteration"
  | x :: xs => Except.ok (enumGo start x xs)

/-- The accumulator loop of `enum_last_value` produces exactly the
enumeration of the sequence from the given start index, flagging the final
position. -/
theorem enumGo_eq_enumFrom (xs : List α) : ∀ (c : Nat) (x : α),
    enumGo c x xs
      = (List.enumFrom c (x :: xs)).map
          (fun p => (p.1, decide (p.1 = c + xs.length), p.2)) := by
  induction xs with
  | nil =>
    intro c x
    simp [enumGo, List.enumFrom]
  | cons v rest ih =>
    intro c x
    have harith : c + (rest.length + 1) = c + 1 + rest.length := by omega
    simp only [List.length_cons, harith]
    rw [show enumGo c x (v :: rest) = (c, false, x) :: enumGo (c + 1) v rest from rfl]
    rw [ih (c + 1) v]
    rw [show List.enumFrom c (x :: v :: rest)
          = (c, x) :: List.enumFrom (c + 1) (v :: rest) from rfl]
    rw [List.map_cons]
    simp [show ¬ (c = c + 1 + rest.length) from by omega]

example :
    enum_last_value 0 [10, 20, 30]
      = Except.ok [(0, false, 10), (1, false, 20), (2, true, 30)] := rfl

/-- C9: on a non-empty sequence of `n` elements, `enum_last_value` yields
exactly `n` triples: the triple at position `i` (counting from the given
start index) carries the index `start + i`, a flag that is `true` exactly
at the final position, and the element the generator read on the previous
iteration of its loop — which, the loop running one element ahead of its
yields, is exactly the element at position `i` of the sequence. -/
theorem enum_last_value_enumerates (start : Nat) (x : α) (xs : List α) :
    enum_last_value start (x :: xs)
      = Except.ok
          ((List.enumFrom start (x :: xs)).map
            (fun p => (p.1, decide (p.1 = start + xs.length), p.2))) := by
  have h : enum_last_value start (x :: xs) = Except.ok (enumGo start x xs) := rfl
  rw [h, enumGo_eq_enumFrom]

/-- C10: on the empty sequence, `enum_last_value` does not yield an empty
enumeration — the initial advance of the iterator fails inside the
generator, so consuming it raises an error. -/
theorem enum_last_value_empty_errors (start : Nat) :
    enum_last_value start ([] : List Nat) = Except.error "StopIteration" := rfl

end LibcanardDsdl
